import Mathlib

/-!
Verification of the core scheduling, deduplication, speaker-attribution and
recognition-fallback logic of the Twitch-Neuro-Chat-Bot repository.

The JavaScript sources are shallowly embedded as executable Lean functions:
numbers become rationals (`ℚ`), timestamps become naturals (milliseconds),
strings stay strings (ASCII case folding stands in for `toLowerCase`), and
the external collaborators (recognition engine subprocess, Gemini generator,
brain module, regex engine) are abstracted as explicit inputs.  Persistence
side effects (JSON stores, logging) are elided; only the data returned to and
stored by the core is modelled.
-/

namespace TwitchBot

attribute [local semireducible] Rat.mul Rat.inv Rat.add Rat.sub Rat.ofScientific

/-- Substring membership on character lists: `containsSub hay need` holds when
`need` occurs contiguously inside `hay` (the model of JS `String.includes`
and of case-insensitive substring regexes such as `/nigg/i`). -/
def containsSub (hay need : List Char) : Bool :=
  match hay with
  | [] => need.isEmpty
  | _ :: t => need.isPrefixOf hay || containsSub t need

/-- `strContains hay need` is JS `hay.includes(need)`. -/
def strContains (hay need : String) : Bool :=
  containsSub hay.data need.data

/-- Case folding for the Latin and Cyrillic ranges actually used by the
program, the model of JS `toLowerCase` (full Unicode folding outside these
ranges is not modelled). -/
def lowerChar (c : Char) : Char :=
  if 65 ≤ c.toNat ∧ c.toNat ≤ 90 then Char.ofNat (c.toNat + 32)
  else if 1040 ≤ c.toNat ∧ c.toNat ≤ 1071 then Char.ofNat (c.toNat + 32)
  else if c.toNat = 1025 then Char.ofNat 1105
  else c

/-- JS `s.toLowerCase()`. -/
def lowerStr (s : String) : String :=
  String.mk (s.data.map lowerChar)

/-- JS `s.trim()` on a character list: strip whitespace from both ends. -/
def trimList (cs : List Char) : List Char :=
  ((cs.dropWhile Char.isWhitespace).reverse.dropWhile Char.isWhitespace).reverse

/-- JS `s.trim()`. -/
def trimStr (s : String) : String :=
  String.mk (trimList s.data)

/-- `s.toLowerCase().trim()` as used for candidate messages
(coordinator.js lines 470 and 472). -/
def lowerTrim (s : String) : String :=
  String.mk (trimList (s.data.map lowerChar))

/-- Splitting a character list at whitespace runs, accumulator-style
(the model of JS `split(/\s+/)` restricted to the nonempty tokens). -/
def splitWsAux : List Char → List Char → List (List Char)
  | [], acc => if acc.isEmpty then [] else [acc.reverse]
  | c :: rest, acc =>
    if c.isWhitespace then
      if acc.isEmpty then splitWsAux rest []
      else acc.reverse :: splitWsAux rest []
    else splitWsAux rest (c :: acc)

/-- Whitespace-delimited words of a string. -/
def wordsOf (s : String) : List String :=
  (splitWsAux s.data []).map String.mk

/-- Joining words back with single spaces. -/
def joinWords : List (List Char) → List Char
  | [] => []
  | [w] => w
  | w :: ws => w ++ ' ' :: joinWords ws

/-- `normalize` from `coordinator.js calculateSimilarity` (line 739):
`str.toLowerCase().trim().replace(/\s+/g, ' ')`.  Collapsing every maximal
whitespace run of a trimmed string to one space is expressed as joining the
whitespace-delimited words with single spaces. -/
def normalizeMsg (s : String) : String :=
  String.mk (joinWords (splitWsAux (s.data.map lowerChar) []))

/-- `Coordinator.calculateSimilarity` (coordinator.js lines 735-764):
1.0 for identical normalized strings, length ratio when one contains the
other, otherwise the Jaccard index of the whitespace-token sets. -/
def calculateSimilarity (msg1 msg2 : String) : ℚ :=
  if msg1 = "" ∨ msg2 = "" then 0
  else
    let n1 := normalizeMsg msg1
    let n2 := normalizeMsg msg2
    if n1 = n2 then 1
    else if strContains n1 n2 || strContains n2 n1 then
      let shorter := if n1.length < n2.length then n1 else n2
      let longer := if n1.length ≥ n2.length then n1 else n2
      (shorter.length : ℚ) / (longer.length : ℚ)
    else
      let words1 := (wordsOf n1).dedup
      let words2 := (wordsOf n2).dedup
      let inter := words1.filter (fun w => w ∈ words2)
      let union := (words1 ++ words2).dedup
      if union.length = 0 then 0
      else (inter.length : ℚ) / (union.length : ℚ)

/-- One bounded-buffer insertion: `arr.push(item); if (arr.length > N)
arr.shift();` — the pattern used for every rolling context buffer
(coordinator.js lines 118-126, 136-139, 181-184, 260-263, 497-500, 767-771). -/
def pushBounded (N : ℕ) (buf : List α) (item : α) : List α :=
  let b := buf ++ [item]
  if N < b.length then b.tail else b

/-- Filling an initially empty rolling buffer of capacity `N` by pushing the
elements of `xs` in order. -/
def fillBuffer (N : ℕ) (xs : List α) : List α :=
  xs.foldl (fun b x => pushBounded N b x) []

theorem pushBounded_of_lt (N : ℕ) (buf : List α) (item : α)
    (h : buf.length < N) : pushBounded N buf item = buf ++ [item] := by
  unfold pushBounded
  simp only [List.length_append, List.length_singleton]
  have : ¬ N < buf.length + 1 := by omega
  simp [this]

theorem fillBuffer_eq_drop (N : ℕ) (hN : 0 < N) (xs : List α) :
    fillBuffer N xs = xs.drop (xs.length - N) := by
  induction xs using List.reverseRecOn with
  | nil => simp [fillBuffer]
  | append_singleton ys x ih =>
    unfold fillBuffer at ih ⊢
    rw [List.foldl_append]
    simp only [List.foldl_cons, List.foldl_nil]
    rw [ih]
    by_cases h : ys.length < N
    · rw [pushBounded_of_lt]
      · have h0 : ys.length - N = 0 := by omega
        have h1 : (ys.length + 1) - N = 0 := by omega
        simp [h0, h1]
      · have h0 : ys.length - N = 0 := by omega
        simp [h0, h]
    · push_neg at h
      unfold pushBounded
      have hlen : (ys.drop (ys.length - N)).length = N := by
        rw [List.length_drop]; omega
      have hcond : N < ((ys.drop (ys.length - N)) ++ [x]).length := by
        simp [hlen]
      simp only [hcond, if_true]
      have hne : ys.drop (ys.length - N) ≠ [] := by
        intro hnil
        rw [hnil] at hlen
        simp at hlen
        omega
      rw [List.tail_append_of_ne_nil hne, List.tail_drop]
      have harith : (ys ++ [x]).length - N = ys.length - N + 1 := by
        simp only [List.length_append, List.length_singleton]
        omega
      rw [harith, List.drop_append_of_le_length (by omega)]

/-- C9: every rolling context buffer of capacity `N` (visual analysis 5,
speech 5, chat 20), after `N + k` pushes (`k > 0`) starting empty, holds
exactly the last `N` pushed items in insertion order, evicting the oldest on
each push past capacity. -/
theorem rolling_buffer_keeps_last_N (N k : ℕ) (hN : 0 < N) (hk : 0 < k)
    (xs : List α) (hlen : xs.length = N + k) :
    fillBuffer N xs = xs.drop k ∧ (fillBuffer N xs).length = N := by
  have h := fillBuffer_eq_drop N hN xs
  have hdk : xs.length - N = k := by omega
  rw [hdk] at h
  refine ⟨h, ?_⟩
  rw [h, List.length_drop]
  omega

/-- Witness for C9 at capacity 5 with 7 pushes. -/
theorem rolling_buffer_keeps_last_N_witness :
    fillBuffer 5 [0, 1, 2, 3, 4, 5, 6] = [2, 3, 4, 5, 6] ∧
      (fillBuffer 5 [0, 1, 2, 3, 4, 5, 6]).length = 5 := by
  have h := rolling_buffer_keeps_last_N 5 2 (by decide) (by decide)
    [0, 1, 2, 3, 4, 5, 6] (by decide)
  simpa using h

/-! ## Emission scheduler (coordinator.js) -/

/-- A labeled speech segment as stored in the coordinator's buffers. -/
structure Speech where
  text : String
  confidence : ℚ
  isStreamer : Bool
  shouldIgnore : Bool
  isSilence : Bool
deriving DecidableEq, Repr

/-- A visual-analysis result as stored in `contextBuffer.recentImageAnalysis`. -/
structure ImageAnalysis where
  description : String
  confidence : ℚ
deriving DecidableEq, Repr

/-- The coordinator's mutable emission state (`this.state`,
coordinator.js lines 6-18). -/
structure CoordState where
  isActive : Bool
  silenceMode : Bool
  lastMessageTime : ℕ
  lastGeminiRequestTime : ℕ
  totalMessages : ℕ
  skippedMessages : ℕ
  recentMessages : List String
  duplicateCount : ℕ
  isFirstMessage : Bool
deriving DecidableEq, Repr

/-- `this.state.geminiCooldown` (coordinator.js line 11), never reassigned. -/
def geminiCooldown : ℕ := 15000

/-- The coordinator's context buffers (`this.contextBuffer`, lines 19-23). -/
structure ContextBuffer where
  recentImageAnalysis : List ImageAnalysis
  recentSpeechText : List Speech
  chatHistory : List String
deriving DecidableEq, Repr

/-- Result of the external Gemini generation call
(`imageAnalyzer.generateChatMessageFromScreenshot`). -/
structure GemResult where
  text : String
  confidence : Option ℚ
deriving DecidableEq, Repr

/-- Per-tick inputs from the external collaborators: the clock, the brain
module (`brainCoordinator.updateTime` is called twice per tick, lines 321 and
534; its two boolean verdicts are `brainWait1`/`brainWait2`), the configured
confidence floor, and the Gemini generator's availability and outcome
(`none` models both a `null` result and a thrown error, which the code
swallows at line 439). -/
structure TickEnv where
  now : ℕ
  brainPresent : Bool
  brainTraining : Bool
  brainWait1 : Bool
  brainWait2 : Bool
  minConfidence : Option ℚ
  geminiAvailable : Bool
  geminiOutcome : Option GemResult
deriving DecidableEq, Repr

/-- `this.state.lastMessageTime > 0 ? Date.now() - lastMessageTime : Infinity`
(lines 310-312 and 528-530); `none` models `Infinity`. -/
def elapsedOpt (lastTime now : ℕ) : Option ℕ :=
  if 0 < lastTime then some (now - lastTime) else none

/-- `elapsed < bound` with `Infinity < bound = false`. -/
def ltTime (e : Option ℕ) (bound : ℕ) : Bool :=
  match e with
  | some t => t < bound
  | none => false

/-- `elapsed > bound` with `Infinity > bound = true`. -/
def gtTime (e : Option ℕ) (bound : ℕ) : Bool :=
  match e with
  | some t => bound < t
  | none => true

/-- JS `x || d` on a number that may be absent or `NaN` (`none`) or zero:
the default wins exactly when the value is falsy. -/
def orFalsy (c : Option ℚ) (d : ℚ) : ℚ :=
  match c with
  | some v => if v = 0 then d else v
  | none => d

/-- The dynamic confidence threshold of `shouldGenerateMessage`
(coordinator.js lines 546-551): 0.2 beyond 15s, 0.3 beyond 8s, otherwise
`config.minConfidence || 0.4`. -/
def dynamicConfidence (minConf : Option ℚ) (e : Option ℕ) : ℚ :=
  if gtTime e 15000 then (2 : ℚ)/10
  else if gtTime e 8000 then (3 : ℚ)/10
  else orFalsy minConf ((4 : ℚ)/10)

/-- `Coordinator.shouldGenerateMessage` (coordinator.js lines 520-592). -/
def shouldGenerateMessage (s : CoordState) (env : TickEnv)
    (imageAnalysis : Option ImageAnalysis) (speechText : Option Speech) :
    Bool :=
  if s.silenceMode then false
  else
    let e := elapsedOpt s.lastMessageTime env.now
    if ltTime e 15000 && env.brainPresent && env.brainWait2 then false
    else
      let dyn := dynamicConfidence env.minConfidence e
      let g1 := match speechText with
        | some sp => sp.isStreamer && decide (dyn ≤ sp.confidence)
        | none => false
      let g2 := match speechText with
        | some sp => !sp.isStreamer && decide (dyn ≤ sp.confidence)
        | none => false
      let g3 := match imageAnalysis with
        | some im => decide (dyn ≤ im.confidence)
        | none => false
      let lowSp := match speechText with
        | some sp => decide ((1 : ℚ)/10 < sp.confidence)
        | none => false
      let lowIm := match imageAnalysis with
        | some im => decide ((1 : ℚ)/10 < im.confidence)
        | none => false
      let hasGoodData := g1 || g2 || g3
      let hasGoodData := hasGoodData || (gtTime e 15000 && (lowSp || lowIm))
      let hasGoodData := hasGoodData || gtTime e 8000
      hasGoodData

/-- The Twitch banned-word patterns of `shouldSendMessage` (line 656),
matched case-insensitively as substrings. -/
def twitchBannedWords : List String := ["nigg", "fagg", "kike"]

/-- `Coordinator.shouldSendMessage` (coordinator.js lines 639-673); the
confidence check compares against `config.minConfidence` directly, and a
`NaN`/absent floor (`none`) makes the JS comparison false, letting the
message through. -/
def shouldSendMessage (text : String) (conf : ℚ) (minConf : Option ℚ) :
    Bool :=
  let message := trimStr text
  if message.length < 3 then false
  else if twitchBannedWords.any (fun w => strContains (lowerStr message) w) then
    false
  else
    match minConf with
    | some m => !decide (conf < m)
    | none => true

/-- The duplicate test of coordinator.js lines 471-474: some stored recent
message has similarity above 0.7 with the lowercased trimmed candidate. -/
def isDuplicateMsg (recent : List String) (messageText : String) : Bool :=
  recent.any (fun r =>
    decide ((7 : ℚ)/10 < calculateSimilarity messageText (lowerTrim r)))

/-- Lines 469-512 of coordinator.js: the deduplication check and commit of a
validated candidate message, returning the emitted text (if any) and the
updated state. -/
def dedupAndCommit (s : CoordState) (message : String) (now : ℕ) :
    Option String × CoordState :=
  let messageText := lowerTrim message
  if isDuplicateMsg s.recentMessages messageText then
    (none, { s with duplicateCount := s.duplicateCount + 1,
                    skippedMessages := s.skippedMessages + 1 })
  else
    let s1 := { s with duplicateCount := 0 }
    (some message,
      { s1 with recentMessages := pushBounded 5 s1.recentMessages messageText,
                isFirstMessage := false,
                lastMessageTime := now,
                totalMessages := s1.totalMessages + 1 })

/-- Outcome of one scheduler tick: the emitted message (if any), the new
emission state, and whether the external Gemini generation call was issued. -/
structure TickResult where
  message : Option String
  state : CoordState
  geminiCalled : Bool
deriving DecidableEq, Repr

/-- `Coordinator.generateMessageFromContext` (coordinator.js lines 295-517),
as a function of the current state, the context buffers, and the per-tick
environment. -/
def generateMessageFromContext (s : CoordState) (buf : ContextBuffer)
    (env : TickEnv) : TickResult :=
  if !s.isActive then ⟨none, s, false⟩
  else if s.silenceMode then ⟨none, s, false⟩
  else if env.brainPresent && env.brainTraining then ⟨none, s, false⟩
  else
    let e := elapsedOpt s.lastMessageTime env.now
    if !s.isFirstMessage && (ltTime e 15000 && env.brainPresent &&
        env.brainWait1) then ⟨none, s, false⟩
    else
      let latestImage := buf.recentImageAnalysis.getLast?
      let latestSpeech := buf.recentSpeechText.getLast?
      let shouldForce := gtTime e 15000
      if !shouldForce && latestImage.isNone && latestSpeech.isNone then
        ⟨none, s, false⟩
      else if !(shouldForce || shouldGenerateMessage s env latestImage
          latestSpeech) then
        ⟨none, { s with skippedMessages := s.skippedMessages + 1 }, false⟩
      else
        let canRequestGemini :=
          decide (geminiCooldown ≤ env.now - s.lastGeminiRequestTime) ||
            s.isFirstMessage
        if env.geminiAvailable && canRequestGemini then
          let s1 := { s with lastGeminiRequestTime := env.now }
          match env.geminiOutcome with
          | some g =>
            if g.text ≠ "" then
              let conf := orFalsy g.confidence ((9 : ℚ)/10)
              if !shouldSendMessage g.text conf env.minConfidence then
                ⟨none, { s1 with skippedMessages := s1.skippedMessages + 1 },
                  true⟩
              else
                let r := dedupAndCommit s1 g.text env.now
                ⟨r.1, r.2, true⟩
            else ⟨none, s1, true⟩
          | none => ⟨none, s1, true⟩
        else ⟨none, s, false⟩

/-- C1: on a scheduler tick that has produced a validated candidate message,
if some of the stored recent outputs has `calculateSimilarity` above 0.7 with
the lowercased trimmed candidate (equivalently: the maximum similarity
exceeds 0.7), the candidate is not emitted and `duplicateCount` increments by
one; otherwise `duplicateCount` resets to zero and the candidate is
committed: emitted, stored into `recentMessages` (capacity 5), with
`lastMessageTime` set and `totalMessages` incremented. -/
theorem dedup_gate_spec (s : CoordState) (message : String) (now : ℕ) :
    (isDuplicateMsg s.recentMessages (lowerTrim message) = true →
      (dedupAndCommit s message now).1 = none ∧
      (dedupAndCommit s message now).2.duplicateCount = s.duplicateCount + 1 ∧
      (dedupAndCommit s message now).2.recentMessages = s.recentMessages) ∧
    (isDuplicateMsg s.recentMessages (lowerTrim message) = false →
      (dedupAndCommit s message now).1 = some message ∧
      (dedupAndCommit s message now).2.duplicateCount = 0 ∧
      (dedupAndCommit s message now).2.recentMessages =
        pushBounded 5 s.recentMessages (lowerTrim message) ∧
      (dedupAndCommit s message now).2.lastMessageTime = now ∧
      (dedupAndCommit s message now).2.totalMessages = s.totalMessages + 1) := by
  unfold dedupAndCommit
  constructor <;> intro h <;> simp [h]

/-- A state holding one recent output, used to exercise the duplicate branch
of the deduplication gate. -/
def dedupSampleState : CoordState :=
  ⟨true, false, 0, 0, 0, 0, ["привет чат"], 0, true⟩

/-- Witness for C1: a candidate identical (after case folding) to a stored
recent output is suppressed and the duplicate counter increments. -/
theorem dedup_gate_spec_witness :
    (dedupAndCommit dedupSampleState "Привет чат" 5).1 = none ∧
    (dedupAndCommit dedupSampleState "Привет чат" 5).2.duplicateCount =
      dedupSampleState.duplicateCount + 1 ∧
    (dedupAndCommit dedupSampleState "Привет чат" 5).2.recentMessages =
      dedupSampleState.recentMessages :=
  (dedup_gate_spec dedupSampleState "Привет чат" 5).1 (by decide)

/-- C4 (counterexample): with the environment-configurable floor
`config.minConfidence` set to 0.2 (a value JS `parseFloat` accepts and the
`|| 0.4` fallback keeps, since 0.2 is truthy), the dynamic threshold is not
monotonically non-increasing: it is 0.2 at elapsed 5s but 0.3 at elapsed 9s. -/
theorem dynamicConfidence_not_monotone_at_02 :
    (5000 : ℕ) ≤ 9000 ∧
    ¬ (dynamicConfidence (some ((2 : ℚ)/10)) (some 9000) ≤
        dynamicConfidence (some ((2 : ℚ)/10)) (some 5000)) := by
  constructor
  · decide
  · decide

/-- C4 (amended): whenever the effective floor `config.minConfidence || 0.4`
is at least 0.3 — true for the shipped default 0.7 and for the 0.4 fallback —
the dynamic confidence threshold is monotonically non-increasing in the
elapsed time since the last emission. -/
theorem dynamicConfidence_antitone (c : Option ℚ)
    (hc : (3 : ℚ)/10 ≤ orFalsy c ((4 : ℚ)/10)) (t1 t2 : ℕ) (h : t1 ≤ t2) :
    dynamicConfidence c (some t2) ≤ dynamicConfidence c (some t1) := by
  have h25 : (2 : ℚ)/10 ≤ 3/10 := by norm_num
  unfold dynamicConfidence gtTime
  by_cases h2 : 15000 < t2 <;> by_cases h1 : 15000 < t1 <;>
    by_cases h3 : 8000 < t2 <;> by_cases h4 : 8000 < t1 <;>
      simp [h2, h1, h3, h4] <;>
      first
        | (exfalso; omega)
        | rfl
        | exact h25
        | exact le_trans h25 hc

/-- Witness for C4 (amended) at the default floor (`none`, so the 0.4
fallback applies) and elapsed times 0 and 20000. -/
theorem dynamicConfidence_antitone_witness :
    dynamicConfidence none (some 20000) ≤ dynamicConfidence none (some 0) :=
  dynamicConfidence_antitone none (by norm_num [orFalsy]) 0 20000
    (by norm_num)

theorem shouldGenerateMessage_eq_false_of_low (s : CoordState) (env : TickEnv)
    (im : Option ImageAnalysis) (sp : Option Speech)
    (hlast : 0 < s.lastMessageTime)
    (helapsed : env.now - s.lastMessageTime ≤ 8000)
    (hsp : ∀ x ∈ sp, x.confidence <
      dynamicConfidence env.minConfidence (elapsedOpt s.lastMessageTime env.now))
    (him : ∀ x ∈ im, x.confidence <
      dynamicConfidence env.minConfidence (elapsedOpt s.lastMessageTime env.now)) :
    shouldGenerateMessage s env im sp = false := by
  unfold shouldGenerateMessage
  have he : elapsedOpt s.lastMessageTime env.now =
      some (env.now - s.lastMessageTime) := by
    unfold elapsedOpt
    simp [hlast]
  have h15 : gtTime (elapsedOpt s.lastMessageTime env.now) 15000 = false := by
    rw [he]
    unfold gtTime
    simp
    omega
  have h8 : gtTime (elapsedOpt s.lastMessageTime env.now) 8000 = false := by
    rw [he]
    unfold gtTime
    simp
    omega
  by_cases hsil : s.silenceMode
  · simp [hsil]
  · simp only [hsil, if_false, Bool.false_eq_true]
    by_cases hw : (ltTime (elapsedOpt s.lastMessageTime env.now) 15000 &&
        env.brainPresent && env.brainWait2) = true
    · simp [hw]
    · simp only [hw, if_false, Bool.false_eq_true, h15, h8]
      cases sp with
      | none =>
        cases im with
        | none => simp
        | some x =>
          have := him x (by simp)
          simp [not_le.mpr this]
      | some y =>
        have hy := hsp y (by simp)
        cases im with
        | none => simp [not_le.mpr hy]
        | some x =>
          have hx := him x (by simp)
          simp [not_le.mpr hy, not_le.mpr hx]

/-- C5 (amended): on a scheduler tick where at most 8 seconds have elapsed
since the last emission and neither the latest speech segment (streamer or
guest) nor the latest visual analysis reaches the dynamic confidence
threshold, the tick is skipped: no message is produced and no external
generation call is made.  (The original claim asserted this for the whole
window below the 15-second forced override, but coordinator.js line 582
forces `hasGoodData = true` as soon as more than 8 seconds have elapsed.) -/
theorem tick_skipped_when_no_source_qualifies_within_8s (s : CoordState)
    (buf : ContextBuffer) (env : TickEnv)
    (hlast : 0 < s.lastMessageTime)
    (helapsed : env.now - s.lastMessageTime ≤ 8000)
    (hsp : ∀ x ∈ buf.recentSpeechText.getLast?, x.confidence <
      dynamicConfidence env.minConfidence (elapsedOpt s.lastMessageTime env.now))
    (him : ∀ x ∈ buf.recentImageAnalysis.getLast?, x.confidence <
      dynamicConfidence env.minConfidence (elapsedOpt s.lastMessageTime env.now)) :
    (generateMessageFromContext s buf env).message = none ∧
    (generateMessageFromContext s buf env).geminiCalled = false := by
  have hsg := shouldGenerateMessage_eq_false_of_low s env
    buf.recentImageAnalysis.getLast? buf.recentSpeechText.getLast?
    hlast helapsed hsp him
  have he : elapsedOpt s.lastMessageTime env.now =
      some (env.now - s.lastMessageTime) := by
    unfold elapsedOpt
    simp [hlast]
  have h15 : gtTime (elapsedOpt s.lastMessageTime env.now) 15000 = false := by
    rw [he]
    unfold gtTime
    simp
    omega
  unfold generateMessageFromContext
  simp only [h15, hsg, Bool.or_self, Bool.or_false, Bool.not_false,
    Bool.false_and, Bool.and_false, if_true]
  split
  · exact ⟨rfl, rfl⟩
  · split
    · exact ⟨rfl, rfl⟩
    · split
      · exact ⟨rfl, rfl⟩
      · split
        · exact ⟨rfl, rfl⟩
        · split
          · exact ⟨rfl, rfl⟩
          · exact ⟨rfl, rfl⟩

/-- A state 6 seconds past its last emission, used to exercise the quality
gate. -/
def quietState : CoordState := ⟨true, false, 20000, 0, 0, 0, [], 0, false⟩

/-- A buffer whose only speech segment is far below every confidence bar. -/
def quietBuf : ContextBuffer :=
  ⟨[], [⟨"тест", (1 : ℚ)/10, true, false, false⟩], []⟩

/-- A tick environment at 26000 ms (6 s after `quietState`'s last emission)
with a cooperative brain and an available generator. -/
def quietEnv : TickEnv :=
  ⟨26000, true, false, false, false, some ((7 : ℚ)/10), true,
    some ⟨"привет чат, как дела", some ((9 : ℚ)/10)⟩⟩

/-- Witness for C5 (amended): 6 s elapsed, speech confidence 0.1 below the
0.7 bar, no visual analysis — the tick is skipped. -/
theorem tick_skipped_when_no_source_qualifies_within_8s_witness :
    (generateMessageFromContext quietState quietBuf quietEnv).message = none ∧
    (generateMessageFromContext quietState quietBuf quietEnv).geminiCalled =
      false :=
  tick_skipped_when_no_source_qualifies_within_8s quietState quietBuf quietEnv
    (by decide) (by decide)
    (by intro x hx; simp [quietBuf] at hx; subst hx; decide)
    (by intro x hx; simp [quietBuf] at hx)

/-- A state 10 seconds past its last emission. -/
def tenSecState : CoordState := ⟨true, false, 20000, 0, 0, 0, [], 0, false⟩

/-- A buffer whose only speech segment has confidence 0.1, below the 0.3
dynamic bar that applies between 8 and 15 seconds. -/
def tenSecBuf : ContextBuffer :=
  ⟨[], [⟨"тест", (1 : ℚ)/10, true, false, false⟩], []⟩

/-- A tick environment at 30000 ms (10 s after `tenSecState`'s last
emission): brain present and not waiting (its own pause checks pass beyond
5 s), Gemini available and past its own cooldown, returning a message. -/
def tenSecEnv : TickEnv :=
  ⟨30000, true, false, false, false, some ((7 : ℚ)/10), true,
    some ⟨"привет чат, как дела", some ((9 : ℚ)/10)⟩⟩

/-- C5 (counterexample): at 10 s elapsed — still below the 15-second forced
override — with no data source at or above the dynamic threshold (speech
confidence 0.1 < 0.3, no visual analysis), the code still issues the
external generation call and emits a message, because coordinator.js line
582 turns `hasGoodData` on as soon as more than 8 seconds have elapsed.
This refutes the claim that such a tick is always skipped. -/
theorem tick_below_override_not_skipped :
    ((1 : ℚ)/10 < dynamicConfidence tenSecEnv.minConfidence
      (elapsedOpt tenSecState.lastMessageTime tenSecEnv.now)) ∧
    (generateMessageFromContext tenSecState tenSecBuf tenSecEnv).geminiCalled =
      true ∧
    (generateMessageFromContext tenSecState tenSecBuf tenSecEnv).message =
      some "привет чат, как дела" := by
  refine ⟨by decide, by decide, by decide⟩

/-- C6 (amended): on a tick taken 5 s after the last emission, not the first
emission, with every buffered source below the dynamic bar, the tick is
skipped and no emission-state field changes except possibly
`skippedMessages`, which increases by at most one (it does increase when a
buffer holds sub-bar content, coordinator.js line 347). -/
theorem cooldown_tick_frame_effect (s : CoordState) (buf : ContextBuffer)
    (env : TickEnv)
    (hfirst : s.isFirstMessage = false)
    (hlast : 0 < s.lastMessageTime)
    (helapsed : env.now - s.lastMessageTime = 5000)
    (hsp : ∀ x ∈ buf.recentSpeechText.getLast?, x.confidence <
      dynamicConfidence env.minConfidence (elapsedOpt s.lastMessageTime env.now))
    (him : ∀ x ∈ buf.recentImageAnalysis.getLast?, x.confidence <
      dynamicConfidence env.minConfidence (elapsedOpt s.lastMessageTime env.now)) :
    (generateMessageFromContext s buf env).message = none ∧
    (generateMessageFromContext s buf env).geminiCalled = false ∧
    (generateMessageFromContext s buf env).state.lastMessageTime =
      s.lastMessageTime ∧
    (generateMessageFromContext s buf env).state.lastGeminiRequestTime =
      s.lastGeminiRequestTime ∧
    (generateMessageFromContext s buf env).state.recentMessages =
      s.recentMessages ∧
    (generateMessageFromContext s buf env).state.duplicateCount =
      s.duplicateCount ∧
    (generateMessageFromContext s buf env).state.isFirstMessage =
      s.isFirstMessage ∧
    (generateMessageFromContext s buf env).state.totalMessages =
      s.totalMessages ∧
    ((generateMessageFromContext s buf env).state.skippedMessages =
        s.skippedMessages ∨
      (generateMessageFromContext s buf env).state.skippedMessages =
        s.skippedMessages + 1) := by
  have hsg := shouldGenerateMessage_eq_false_of_low s env
    buf.recentImageAnalysis.getLast? buf.recentSpeechText.getLast?
    hlast (by omega) hsp him
  have h15 : gtTime (elapsedOpt s.lastMessageTime env.now) 15000 = false := by
    unfold elapsedOpt gtTime
    simp [hlast]
    omega
  unfold generateMessageFromContext
  simp only [h15, hsg, Bool.or_self, Bool.or_false, Bool.not_false,
    Bool.false_and, Bool.and_false, if_true]
  split
  · exact ⟨rfl, rfl, rfl, rfl, rfl, rfl, rfl, rfl, Or.inl rfl⟩
  · split
    · exact ⟨rfl, rfl, rfl, rfl, rfl, rfl, rfl, rfl, Or.inl rfl⟩
    · split
      · exact ⟨rfl, rfl, rfl, rfl, rfl, rfl, rfl, rfl, Or.inl rfl⟩
      · split
        · exact ⟨rfl, rfl, rfl, rfl, rfl, rfl, rfl, rfl, Or.inl rfl⟩
        · split
          · exact ⟨rfl, rfl, rfl, rfl, rfl, rfl, rfl, rfl, Or.inl rfl⟩
          · exact ⟨rfl, rfl, rfl, rfl, rfl, rfl, rfl, rfl, Or.inr rfl⟩

/-- A state 5 seconds past its last emission with zero skips so far. -/
def fiveSecState : CoordState := ⟨true, false, 20000, 0, 0, 0, [], 0, false⟩

/-- A buffer holding one sub-bar speech segment. -/
def fiveSecBuf : ContextBuffer :=
  ⟨[], [⟨"тест", (1 : ℚ)/10, true, false, false⟩], []⟩

/-- A tick environment at 25000 ms (5 s after `fiveSecState`'s last
emission), brain present and not waiting. -/
def fiveSecEnv : TickEnv :=
  ⟨25000, true, false, false, false, some ((7 : ℚ)/10), false, none⟩

/-- Witness for C6 (amended) at the concrete 5-second scenario. -/
theorem cooldown_tick_frame_effect_witness :
    (generateMessageFromContext fiveSecState fiveSecBuf fiveSecEnv).message =
      none ∧
    (generateMessageFromContext fiveSecState fiveSecBuf
        fiveSecEnv).geminiCalled = false ∧
    (generateMessageFromContext fiveSecState fiveSecBuf
        fiveSecEnv).state.lastMessageTime = fiveSecState.lastMessageTime ∧
    (generateMessageFromContext fiveSecState fiveSecBuf
        fiveSecEnv).state.lastGeminiRequestTime =
      fiveSecState.lastGeminiRequestTime ∧
    (generateMessageFromContext fiveSecState fiveSecBuf
        fiveSecEnv).state.recentMessages = fiveSecState.recentMessages ∧
    (generateMessageFromContext fiveSecState fiveSecBuf
        fiveSecEnv).state.duplicateCount = fiveSecState.duplicateCount ∧
    (generateMessageFromContext fiveSecState fiveSecBuf
        fiveSecEnv).state.isFirstMessage = fiveSecState.isFirstMessage ∧
    (generateMessageFromContext fiveSecState fiveSecBuf
        fiveSecEnv).state.totalMessages = fiveSecState.totalMessages ∧
    ((generateMessageFromContext fiveSecState fiveSecBuf
          fiveSecEnv).state.skippedMessages = fiveSecState.skippedMessages ∨
      (generateMessageFromContext fiveSecState fiveSecBuf
          fiveSecEnv).state.skippedMessages =
        fiveSecState.skippedMessages + 1) :=
  cooldown_tick_frame_effect fiveSecState fiveSecBuf fiveSecEnv
    (by decide) (by decide) (by decide)
    (by intro x hx; simp [fiveSecBuf] at hx; subst hx; decide)
    (by intro x hx; simp [fiveSecBuf] at hx)

/-- A copy of the 5-second scenario used to refute the zero-mutation claim. -/
def fiveSecStateB : CoordState := ⟨true, false, 20000, 0, 0, 0, [], 0, false⟩

/-- A buffer holding one sub-bar speech segment. -/
def fiveSecBufB : ContextBuffer :=
  ⟨[], [⟨"тест", (1 : ℚ)/10, true, false, false⟩], []⟩

/-- The matching 5-second tick environment. -/
def fiveSecEnvB : TickEnv :=
  ⟨25000, true, false, false, false, some ((7 : ℚ)/10), false, none⟩

/-- C6 (counterexample): in the 5-second cooldown scenario with sub-bar
buffered content the tick is indeed skipped, but `skippedMessages` is
incremented (coordinator.js line 347), so the claimed zero-mutation of all
listed fields — `skippedMessages` among them — is false. -/
theorem cooldown_tick_mutates_skip_counter :
    (generateMessageFromContext fiveSecStateB fiveSecBufB fiveSecEnvB).message
      = none ∧
    (generateMessageFromContext fiveSecStateB fiveSecBufB
        fiveSecEnvB).state.skippedMessages ≠ fiveSecStateB.skippedMessages := by
  refine ⟨by decide, by decide⟩

/-- C7: the external Gemini generation call has its own independent
15-second cooldown (`state.geminiCooldown`, coordinator.js line 11),
bypassed only on the first emission: on any tick where less than 15 s have
elapsed since the last external call and it is not the first emission, no
external call is issued and no message is produced — regardless of whether
the emission gates passed. -/
theorem gemini_cooldown_gate (s : CoordState) (buf : ContextBuffer)
    (env : TickEnv)
    (hfirst : s.isFirstMessage = false)
    (hcool : env.now - s.lastGeminiRequestTime < geminiCooldown) :
    (generateMessageFromContext s buf env).geminiCalled = false ∧
    (generateMessageFromContext s buf env).message = none := by
  have hreq : (decide (geminiCooldown ≤ env.now - s.lastGeminiRequestTime) ||
      s.isFirstMessage) = false := by
    simp [hfirst]
    omega
  unfold generateMessageFromContext
  simp only [hreq, Bool.and_false, if_false]
  split
  · exact ⟨rfl, rfl⟩
  · split
    · exact ⟨rfl, rfl⟩
    · split
      · exact ⟨rfl, rfl⟩
      · split
        · exact ⟨rfl, rfl⟩
        · split
          · exact ⟨rfl, rfl⟩
          · split
            · exact ⟨rfl, rfl⟩
            · exact ⟨rfl, rfl⟩

/-- A state whose last Gemini request was 10 s ago, past the emission
cooldown but inside the Gemini cooldown. -/
def geminiBusyState : CoordState :=
  ⟨true, false, 4000, 20000, 0, 0, [], 0, false⟩

/-- An empty context buffer. -/
def geminiBusyBuf : ContextBuffer := ⟨[], [], []⟩

/-- A tick environment at 30000 ms: 26 s since the last emission (forced
override active) but only 10 s since the last Gemini request. -/
def geminiBusyEnv : TickEnv :=
  ⟨30000, true, false, false, false, some ((7 : ℚ)/10), true,
    some ⟨"привет чат", some ((9 : ℚ)/10)⟩⟩

/-- Witness for C7: emission gate passes (26 s elapsed, forced override)
yet the tick stops at the Gemini cooldown gate. -/
theorem gemini_cooldown_gate_witness :
    (generateMessageFromContext geminiBusyState geminiBusyBuf
        geminiBusyEnv).geminiCalled = false ∧
    (generateMessageFromContext geminiBusyState geminiBusyBuf
        geminiBusyEnv).message = none :=
  gemini_cooldown_gate geminiBusyState geminiBusyBuf geminiBusyEnv
    (by decide) (by decide)

/-! ## Recognition fallback cascade (LocalWhisper) -/

/-- `this.modelHierarchy` (localWhisper constructor, line 606): model tiers
from largest to smallest. -/
def modelHierarchy : List String :=
  ["large-v3", "large-v2", "large", "medium", "small", "base", "tiny"]

/-- The base-model computation of line 790: JS `replace` of the regex
"dash, letter v, one or more digits, end of string" by the empty string,
stripping a trailing version suffix such as `-v3`. -/
def stripVersion (m : String) : String :=
  let rev := m.data.reverse
  let ds := rev.takeWhile Char.isDigit
  let rest := rev.drop ds.length
  if ds ≠ [] ∧ rest.take 2 = ['v', '-'] then String.mk (rest.drop 2).reverse
  else m

/-- The tier lookup of lines 791-795: exact `indexOf`, falling back to
`findIndex(m => m.startsWith(baseModel))`; `none` models `-1`. -/
def hierIndexOf (m : String) : Option ℕ :=
  match modelHierarchy.findIdx? (fun h => h == m) with
  | some i => some i
  | none =>
    modelHierarchy.findIdx? (fun h => (stripVersion m).data.isPrefixOf h.data)

/-- The CUDA-failure classifier of lines 756-760. -/
def isCudaErrorMsg (e : String) : Bool :=
  strContains e "cublas" || strContains e "cuda" || strContains e "CUDA" ||
    strContains e ".dll is not found" || strContains e "cannot be loaded"

/-- The memory-exhaustion classifier of lines 763-766. -/
def isMemoryErrorMsg (e : String) : Bool :=
  strContains e "mkl_malloc" || strContains e "failed to allocate memory" ||
    strContains e "out of memory" || strContains e "MemoryError"

/-- The next smaller tier, when one exists (lines 791-798): found index
strictly below the last position. -/
def nextSmallerModel (currentModel : String) : Option String :=
  match hierIndexOf currentModel with
  | some i =>
    if i < modelHierarchy.length - 1 then some (modelHierarchy.getD (i + 1) "")
    else none
  | none => none

/-- One invocation outcome of the out-of-process recognition engine:
a parsed success, a parsed JSON `error` field (line 754), a timeout kill
(`SIGTERM`, line 839), or a raised exec error carrying its message and the
JSON `error` recovered from its stdout if any (lines 870-948). -/
inductive EngineOutcome where
  | success (text : Option String) (confidence : Option ℚ) (language : Option String)
  | resultError (msg : String)
  | timeoutKilled
  | procError (errMsg : String) (stdoutError : Option String)
deriving DecidableEq, Repr

/-- The decision taken after one engine invocation: return a result, raise a
terminal failure for this request, or retry at another (model, device). -/
inductive CascadeStep where
  | ok (text : Option String) (confidence : ℚ)
  | failure (msg : String)
  | retry (model device : String)
deriving DecidableEq, Repr

/-- The per-invocation control flow of `recognizeWithFasterWhisper`
(part_007 lines 718-958), with `currentDevice` already case-normalized
(the source lowercases it at every entry, line 721, which is idempotent, so
the model normalizes once at the top-level entry point instead):
a parsed-JSON error checks CUDA first (retry same tier on "cpu") then memory
(downgrade tier, same device); a timeout downgrades like a memory error; a
raised exec error with recoverable stdout JSON checks memory first then
CUDA; everything else is a terminal failure. -/
def nextAttempt (currentModel currentDevice : String) (o : EngineOutcome) :
    CascadeStep :=
  match o with
  | .success t c _ =>
    .ok (t.bind fun s => if s = "" then none else some s)
      (orFalsy c ((8 : ℚ)/10))
  | .resultError e =>
    if isCudaErrorMsg e && (currentDevice == "cuda") then
      .retry currentModel "cpu"
    else if isMemoryErrorMsg e then
      match nextSmallerModel currentModel with
      | some m2 => .retry m2 currentDevice
      | none => .failure ("Недостаточно памяти для модели " ++ currentModel)
    else .failure e
  | .timeoutKilled =>
    match nextSmallerModel currentModel with
    | some m2 => .retry m2 currentDevice
    | none => .failure ("Таймаут для модели " ++ currentModel)
  | .procError errMsg se =>
    match se with
    | some e =>
      if isMemoryErrorMsg e then
        match nextSmallerModel currentModel with
        | some m2 => .retry m2 currentDevice
        | none => .failure ("Недостаточно памяти для модели " ++ currentModel)
      else if isCudaErrorMsg e && (currentDevice == "cuda") then
        .retry currentModel "cpu"
      else .failure errMsg
    | none => .failure errMsg

/-- The terminal outcome of one recognition request's retry ladder. -/
inductive CascadeResult where
  | ok (text : Option String) (confidence : ℚ)
  | failed (msg : String)
  | outOfFuel
deriving DecidableEq, Repr

/-- The recursive retry ladder of `recognizeWithFasterWhisper`, driven by an
oracle giving the engine's outcome at each (model, device) invocation;
returns the list of attempted configurations and the terminal outcome.  The
`fuel` argument bounds the recursion depth; `cascade_bounded` below shows
any fuel above `cascadeMeasure` is enough. -/
def recognizeWithFasterWhisper (oracle : String → String → EngineOutcome) :
    ℕ → String → String → List (String × String) × CascadeResult
  | 0, _, _ => ([], .outOfFuel)
  | fuel + 1, model, device =>
    match nextAttempt model device (oracle model device) with
    | .ok t c => ([(model, device)], .ok t c)
    | .failure m => ([(model, device)], .failed m)
    | .retry m2 d2 =>
      let r := recognizeWithFasterWhisper oracle fuel m2 d2
      ((model, device) :: r.1, r.2)

/-- Tier index of a model, with absent models mapped past the end. -/
def tierIdxN (m : String) : ℕ :=
  (hierIndexOf m).getD modelHierarchy.length

/-- Termination measure of the cascade: remaining downgrade steps plus one
pending backend switch while on "cuda". -/
def cascadeMeasure (m d : String) : ℕ :=
  (modelHierarchy.length - 1 - tierIdxN m) + (if d == "cuda" then 1 else 0)

/-- The monotonicity relation between consecutive attempts: the tier index
never decreases, and the device either stays or switches cuda→cpu. -/
def stepRel (a b : String × String) : Prop :=
  tierIdxN a.1 ≤ tierIdxN b.1 ∧ (b.2 = a.2 ∨ (a.2 = "cuda" ∧ b.2 = "cpu"))

theorem hierIndexOf_getD :
    ∀ i, i < modelHierarchy.length →
      hierIndexOf (modelHierarchy.getD i "") = some i := by
  decide

theorem nextSmallerModel_tier {m m2 : String}
    (h : nextSmallerModel m = some m2) :
    tierIdxN m < tierIdxN m2 ∧ tierIdxN m2 ≤ modelHierarchy.length - 1 := by
  unfold nextSmallerModel at h
  cases hidx : hierIndexOf m with
  | none => rw [hidx] at h; exact absurd h (by simp)
  | some i =>
    rw [hidx] at h
    by_cases hlt : i < modelHierarchy.length - 1
    · simp only [hlt, if_true, Option.some_inj] at h
      have hgot := hierIndexOf_getD (i + 1) (by omega)
      rw [h] at hgot
      unfold tierIdxN
      rw [hidx, hgot]
      simp
      omega
    · simp [hlt] at h

theorem nextAttempt_retry {m d o m2 d2}
    (h : nextAttempt m d o = CascadeStep.retry m2 d2) :
    ((tierIdxN m < tierIdxN m2 ∧ d2 = d) ∨
      (m2 = m ∧ d = "cuda" ∧ d2 = "cpu")) ∧
    cascadeMeasure m2 d2 < cascadeMeasure m d := by
  have hcpu : ¬ (("cpu" : String) == "cuda") = true := by decide
  unfold nextAttempt at h
  cases o with
  | success t c l => exact absurd h (by simp)
  | resultError e =>
    by_cases hc : (isCudaErrorMsg e && (d == "cuda")) = true
    · simp only [hc, if_true, CascadeStep.retry.injEq] at h
      obtain ⟨h1, h2⟩ := h
      have hd : d = "cuda" := by
        have := (Bool.and_eq_true _ _).mp hc
        exact eq_of_beq this.2
      refine ⟨Or.inr ⟨h1.symm, hd, h2.symm⟩, ?_⟩
      unfold cascadeMeasure
      subst h1 h2 hd
      simp [hcpu]
    · simp only [hc, Bool.false_eq_true, if_false] at h
      by_cases hm : isMemoryErrorMsg e = true
      · simp only [hm, if_true] at h
        cases hn : nextSmallerModel m with
        | none => rw [hn] at h; exact absurd h (by simp)
        | some mm =>
          rw [hn] at h
          simp only [CascadeStep.retry.injEq] at h
          obtain ⟨h1, h2⟩ := h
          subst h1 h2
          have := nextSmallerModel_tier hn
          refine ⟨Or.inl ⟨this.1, rfl⟩, ?_⟩
          unfold cascadeMeasure
          have hlen : tierIdxN m < modelHierarchy.length - 1 := by
            have := this.2; omega
          omega
      · simp [hm] at h
  | timeoutKilled =>
    cases hn : nextSmallerModel m with
    | none => rw [hn] at h; exact absurd h (by simp)
    | some mm =>
      rw [hn] at h
      simp only [CascadeStep.retry.injEq] at h
      obtain ⟨h1, h2⟩ := h
      subst h1 h2
      have := nextSmallerModel_tier hn
      refine ⟨Or.inl ⟨this.1, rfl⟩, ?_⟩
      unfold cascadeMeasure
      have hlen : tierIdxN m < modelHierarchy.length - 1 := by
        have := this.2; omega
      omega
  | procError errMsg se =>
    cases se with
    | none => exact absurd h (by simp)
    | some e =>
      by_cases hm : isMemoryErrorMsg e = true
      · simp only [hm, if_true] at h
        cases hn : nextSmallerModel m with
        | none => rw [hn] at h; exact absurd h (by simp)
        | some mm =>
          rw [hn] at h
          simp only [CascadeStep.retry.injEq] at h
          obtain ⟨h1, h2⟩ := h
          subst h1 h2
          have := nextSmallerModel_tier hn
          refine ⟨Or.inl ⟨this.1, rfl⟩, ?_⟩
          unfold cascadeMeasure
          have hlen : tierIdxN m < modelHierarchy.length - 1 := by
            have := this.2; omega
          omega
      · simp only [hm, Bool.false_eq_true, if_false] at h
        by_cases hc : (isCudaErrorMsg e && (d == "cuda")) = true
        · simp only [hc, if_true, CascadeStep.retry.injEq] at h
          obtain ⟨h1, h2⟩ := h
          have hd : d = "cuda" := by
            have := (Bool.and_eq_true _ _).mp hc
            exact eq_of_beq this.2
          refine ⟨Or.inr ⟨h1.symm, hd, h2.symm⟩, ?_⟩
          unfold cascadeMeasure
          subst h1 h2 hd
          simp [hcpu]
        · simp [hc] at h

theorem cascade_trace_head (oracle : String → String → EngineOutcome)
    (fuel : ℕ) (m d : String) (hfuel : 0 < fuel) :
    (recognizeWithFasterWhisper oracle fuel m d).1.head? = some (m, d) := by
  cases fuel with
  | zero => omega
  | succ n =>
    unfold recognizeWithFasterWhisper
    split <;> simp

theorem cascade_chain (oracle : String → String → EngineOutcome)
    (fuel : ℕ) (m d : String) :
    List.Chain' stepRel (recognizeWithFasterWhisper oracle fuel m d).1 := by
  induction fuel generalizing m d with
  | zero => simp [recognizeWithFasterWhisper]
  | succ n ih =>
    unfold recognizeWithFasterWhisper
    split
    · simp
    · simp
    · rename_i m2 d2 hstep
      rw [List.chain'_cons']
      refine ⟨?_, ih m2 d2⟩
      intro b hb
      cases n with
      | zero => simp [recognizeWithFasterWhisper] at hb
      | succ k =>
        rw [cascade_trace_head oracle (k + 1) m2 d2 (by omega)] at hb
        simp only [Option.mem_def, Option.some_inj] at hb
        subst hb
        rcases (nextAttempt_retry hstep).1 with ⟨hlt, hdev⟩ | ⟨hm, hd, hd2⟩
        · exact ⟨le_of_lt hlt, Or.inl hdev⟩
        · subst hm
          exact ⟨le_refl _, Or.inr ⟨hd, hd2⟩⟩

theorem cascade_bounded (oracle : String → String → EngineOutcome)
    (fuel : ℕ) (m d : String) :
    (recognizeWithFasterWhisper oracle fuel m d).1.length ≤
      cascadeMeasure m d + 1 ∧
    (cascadeMeasure m d < fuel →
      (recognizeWithFasterWhisper oracle fuel m d).2 ≠
        CascadeResult.outOfFuel) := by
  induction fuel generalizing m d with
  | zero =>
    refine ⟨by simp [recognizeWithFasterWhisper], by omega⟩
  | succ n ih =>
    unfold recognizeWithFasterWhisper
    split
    · refine ⟨by simp, by simp⟩
    · refine ⟨by simp, by simp⟩
    · rename_i m2 d2 hstep
      have hdec := (nextAttempt_retry hstep).2
      obtain ⟨ih1, ih2⟩ := ih m2 d2
      constructor
      · simp only [List.length_cons]
        omega
      · intro hlt
        simp only
        exact ih2 (by omega)

theorem cascadeMeasure_le (m d : String) :
    cascadeMeasure m d ≤ modelHierarchy.length := by
  unfold cascadeMeasure
  have : modelHierarchy.length = 7 := by decide
  split <;> omega

/-- C2: within one recognition request, every retry decision of
`nextAttempt` either moves to a strictly smaller tier (same backend) or
switches backend cuda→cpu (same tier); along the whole attempt trace the
tier index is non-decreasing and the backend, once off "cuda", never
returns to it; consequently with any fuel above `cascadeMeasure` (which
never exceeds the hierarchy length, 7) the ladder terminates without
exhausting fuel, in at most hierarchy-length-plus-one attempts. -/
theorem recognition_cascade_monotone_bounded
    (oracle : String → String → EngineOutcome) (fuel : ℕ) (m d : String)
    (hfuel : cascadeMeasure m d < fuel) :
    (∀ (m1 d1 : String) (o : EngineOutcome) (m2 d2 : String),
      nextAttempt m1 d1 o = CascadeStep.retry m2 d2 →
        (tierIdxN m1 < tierIdxN m2 ∧ d2 = d1) ∨
          (m2 = m1 ∧ d1 = "cuda" ∧ d2 = "cpu")) ∧
    List.Chain' stepRel (recognizeWithFasterWhisper oracle fuel m d).1 ∧
    (recognizeWithFasterWhisper oracle fuel m d).2 ≠ CascadeResult.outOfFuel ∧
    (recognizeWithFasterWhisper oracle fuel m d).1.length ≤
      modelHierarchy.length + 1 := by
  refine ⟨fun m1 d1 o m2 d2 h => (nextAttempt_retry h).1,
    cascade_chain oracle fuel m d,
    (cascade_bounded oracle fuel m d).2 hfuel, ?_⟩
  have h1 := (cascade_bounded oracle fuel m d).1
  have h2 := cascadeMeasure_le m d
  omega

/-- An engine oracle that always reports memory exhaustion, driving the
cascade through the whole tier hierarchy. -/
def alwaysOOM : String → String → EngineOutcome :=
  fun _ _ => EngineOutcome.resultError "failed to allocate memory"

/-- Witness for C2: starting from the largest tier on cuda with fuel 9. -/
theorem recognition_cascade_monotone_bounded_witness :
    (∀ (m1 d1 : String) (o : EngineOutcome) (m2 d2 : String),
      nextAttempt m1 d1 o = CascadeStep.retry m2 d2 →
        (tierIdxN m1 < tierIdxN m2 ∧ d2 = d1) ∨
          (m2 = m1 ∧ d1 = "cuda" ∧ d2 = "cpu")) ∧
    List.Chain' stepRel
      (recognizeWithFasterWhisper alwaysOOM 9 "large-v3" "cuda").1 ∧
    (recognizeWithFasterWhisper alwaysOOM 9 "large-v3" "cuda").2 ≠
      CascadeResult.outOfFuel ∧
    (recognizeWithFasterWhisper alwaysOOM 9 "large-v3" "cuda").1.length ≤
      modelHierarchy.length + 1 :=
  recognition_cascade_monotone_bounded alwaysOOM 9 "large-v3" "cuda"
    (by decide)

/-- The result shape of `recognizeFromStream` (part_007 lines 647-716):
recognized text (or none), a confidence, and an error message when the
request failed terminally. -/
structure RecognitionResult where
  text : Option String
  confidence : ℚ
  error : Option String
deriving DecidableEq, Repr

/-- `LocalWhisper.recognizeFromStream` (part_007 lines 647-716) reduced to
the recognition path: empty audio yields an empty result (lines 648-654);
otherwise the faster-whisper ladder runs (device case-normalized) and any
exception escaping it is caught at line 707 and turned into
`{text: null, confidence: 0, error}` rather than re-raised. -/
def recognizeFromStream (oracle : String → String → EngineOutcome)
    (audioNonempty : Bool) (model device : String) : RecognitionResult :=
  if !audioNonempty then ⟨none, 0, none⟩
  else
    match (recognizeWithFasterWhisper oracle (modelHierarchy.length + 2)
        model (lowerStr device)).2 with
    | .ok t c => ⟨t, c, none⟩
    | .failed msg => ⟨none, 0, some msg⟩
    | .outOfFuel => ⟨none, 0, some "outOfFuel"⟩

/-- C3: when a request hits resource exhaustion (or a timeout) at the
smallest tier "tiny", so that no smaller tier exists, `recognizeFromStream`
returns an empty-text result `{text: null, confidence: 0}` carrying an error
message, instead of raising to its caller. -/
theorem smallest_tier_failure_returns_empty
    (oracle oracle2 : String → String → EngineOutcome) (e : String)
    (he : oracle "tiny" "cpu" = EngineOutcome.resultError e)
    (hmem : isMemoryErrorMsg e = true)
    (hcuda : isCudaErrorMsg e = false)
    (ht : oracle2 "tiny" "cpu" = EngineOutcome.timeoutKilled) :
    recognizeFromStream oracle true "tiny" "cpu" =
      ⟨none, 0, some ("Недостаточно памяти для модели " ++ "tiny")⟩ ∧
    recognizeFromStream oracle2 true "tiny" "cpu" =
      ⟨none, 0, some ("Таймаут для модели " ++ "tiny")⟩ := by
  have hl : lowerStr "cpu" = "cpu" := by decide
  have hn : nextSmallerModel "tiny" = none := by decide
  constructor
  · unfold recognizeFromStream
    simp only [Bool.not_true, Bool.false_eq_true, if_false, hl]
    have hrun : (recognizeWithFasterWhisper oracle
        (modelHierarchy.length + 2) "tiny" "cpu").2 =
        CascadeResult.failed ("Недостаточно памяти для модели " ++ "tiny") := by
      show (recognizeWithFasterWhisper oracle 9 "tiny" "cpu").2 = _
      unfold recognizeWithFasterWhisper
      rw [he]
      unfold nextAttempt
      simp [hmem, hcuda, hn]
    rw [hrun]
  · unfold recognizeFromStream
    simp only [Bool.not_true, Bool.false_eq_true, if_false, hl]
    have hrun : (recognizeWithFasterWhisper oracle2
        (modelHierarchy.length + 2) "tiny" "cpu").2 =
        CascadeResult.failed ("Таймаут для модели " ++ "tiny") := by
      show (recognizeWithFasterWhisper oracle2 9 "tiny" "cpu").2 = _
      unfold recognizeWithFasterWhisper
      rw [ht]
      unfold nextAttempt
      simp [hn]
    rw [hrun]

/-- An engine oracle that always times out. -/
def alwaysTimeout : String → String → EngineOutcome :=
  fun _ _ => EngineOutcome.timeoutKilled

/-- Witness for C3 with concrete always-failing oracles. -/
theorem smallest_tier_failure_returns_empty_witness :
    recognizeFromStream alwaysOOM true "tiny" "cpu" =
      ⟨none, 0, some ("Недостаточно памяти для модели " ++ "tiny")⟩ ∧
    recognizeFromStream alwaysTimeout true "tiny" "cpu" =
      ⟨none, 0, some ("Таймаут для модели " ++ "tiny")⟩ :=
  smallest_tier_failure_returns_empty alwaysOOM alwaysTimeout
    "failed to allocate memory" (by decide) (by decide) (by decide) (by decide)

/-! ## Speaker attribution (LocalVoiceIdentifier) -/

/-- Which of the fixed regex pattern lists matched the (lowercased) input
text: two donation patterns, three streamer patterns, two guest patterns
(localVoiceIdentifier.js lines 20-39).  The regex engine is external to the
model; each flag is the boolean outcome of one `pattern.test(lowerText)`. -/
structure RegexHits where
  donation1 : Bool
  donation2 : Bool
  streamer1 : Bool
  streamer2 : Bool
  streamer3 : Bool
  guest1 : Bool
  guest2 : Bool
deriving DecidableEq, Repr

/-- The classification returned by `analyzeTextPatterns`. -/
structure TextAnalysis where
  ttype : String
  confidence : ℚ
deriving DecidableEq, Repr

/-- `analyzeTextPatterns` (localVoiceIdentifier.js lines 141-188, identical
in the unnamed copy): donation patterns are authoritative with confidence
0.9; otherwise each streamer/guest pattern hit adds 0.3 and the class wins
above its threshold (streamer > 0.5, guest > 0.3), confidence capped at
0.9/0.8; `none` when no rule fires. -/
def analyzeTextPatterns (h : RegexHits) : Option TextAnalysis :=
  if h.donation1 || h.donation2 then some ⟨"donation", (9 : ℚ)/10⟩
  else
    let streamerScore : ℚ :=
      (if h.streamer1 then (3 : ℚ)/10 else 0) +
        (if h.streamer2 then (3 : ℚ)/10 else 0) +
        (if h.streamer3 then (3 : ℚ)/10 else 0)
    let guestScore : ℚ :=
      (if h.guest1 then (3 : ℚ)/10 else 0) +
        (if h.guest2 then (3 : ℚ)/10 else 0)
    if (5 : ℚ)/10 < streamerScore then
      some ⟨"streamer", min streamerScore ((9 : ℚ)/10)⟩
    else if (3 : ℚ)/10 < guestScore then
      some ⟨"guest", min guestScore ((8 : ℚ)/10)⟩
    else none

/-- Features extracted from one audio sample (`extractAudioFeatures`);
`speechRate` is null when the segment carries no text. -/
structure AudioFeatures where
  avgVolume : ℚ
  avgPitch : ℚ
  speechRate : Option ℚ
deriving DecidableEq, Repr

/-- A profile's stored averages, each null until first observation. -/
structure ProfileFeatures where
  avgVolume : Option ℚ
  avgPitch : Option ℚ
  speechRate : Option ℚ
deriving DecidableEq, Repr

/-- A stored voice profile (return-value-relevant fields). -/
structure VoiceProfile where
  id : String
  name : String
  vtype : String
  features : ProfileFeatures
deriving DecidableEq, Repr

/-- JS truthiness of a nullable number: non-null and nonzero. -/
def truthyQ (o : Option ℚ) : Bool :=
  match o with
  | some v => decide (v ≠ 0)
  | none => false

/-- `compareVoiceFeatures` (localVoiceIdentifier.js lines 193-226):
weighted closeness of volume (tolerance 0.2, weight 0.3), pitch (tolerance
50, weight 0.4) and speech rate (tolerance 30% of the stored rate, weight
0.3), normalized by the weights of the factors actually present. -/
def compareVoiceFeatures (features : AudioFeatures) (pf : ProfileFeatures) :
    ℚ :=
  let acc0 : ℚ × ℚ := (0, 0)
  let acc1 :=
    if truthyQ pf.avgVolume && decide (features.avgVolume ≠ 0) then
      let volumeDiff := |features.avgVolume - pf.avgVolume.getD 0|
      let volumeSimilarity := max 0 (1 - volumeDiff / ((2 : ℚ)/10))
      (acc0.1 + volumeSimilarity * ((3 : ℚ)/10), acc0.2 + (3 : ℚ)/10)
    else acc0
  let acc2 :=
    if truthyQ pf.avgPitch && decide (features.avgPitch ≠ 0) then
      let pitchDiff := |features.avgPitch - pf.avgPitch.getD 0|
      let pitchSimilarity := max 0 (1 - pitchDiff / 50)
      (acc1.1 + pitchSimilarity * ((4 : ℚ)/10), acc1.2 + (4 : ℚ)/10)
    else acc1
  let acc3 :=
    if truthyQ pf.speechRate && truthyQ features.speechRate then
      let rateDiff := |features.speechRate.getD 0 - pf.speechRate.getD 0|
      let rateSimilarity :=
        max 0 (1 - rateDiff / (pf.speechRate.getD 0 * ((3 : ℚ)/10)))
      (acc2.1 + rateSimilarity * ((3 : ℚ)/10), acc2.2 + (3 : ℚ)/10)
    else acc2
  if 0 < acc3.2 then acc3.1 / acc3.2 else 0

/-- The per-profile score of the matching loop (lines 267-290): text-type
agreement contributes `confidence * 0.5`, audio closeness contributes
`compareVoiceFeatures * 0.5`. -/
def profileScore (ana : Option TextAnalysis) (af : Option AudioFeatures)
    (p : VoiceProfile) : ℚ :=
  (match ana with
    | some t => if t.ttype == p.vtype then t.confidence * ((5 : ℚ)/10) else 0
    | none => 0) +
  (match af with
    | some f => compareVoiceFeatures f p.features * ((5 : ℚ)/10)
    | none => 0)

/-- The best-match fold of lines 264-290: highest score wins, first
(insertion-order) profile kept on ties. -/
def bestProfile (ana : Option TextAnalysis) (af : Option AudioFeatures)
    (db : List VoiceProfile) : ℚ × Option VoiceProfile :=
  db.foldl
    (fun acc p =>
      let score := profileScore ana af p
      if acc.1 < score then (score, some p) else acc)
    (0, none)

/-- The labeled identification returned by `identifySpeaker`. -/
structure VoiceIdent where
  speaker : String
  confidence : ℚ
  vtype : String
  isStreamer : Bool
  shouldIgnore : Bool
deriving DecidableEq, Repr

/-- The shared body of both `identifySpeaker` versions (localVoiceIdentifier.js
lines 231-352 and its unnamed updated copy, lines 310-484), which differ
only in the final ambiguous default, passed as `defaultIdent`.  Absent/empty
text short-circuits to unknown/ignore; a donation classification
short-circuits to ignore; a stored profile with score above 0.6 wins next;
then a lexical streamer/guest classification; else the default.  Profile
persistence side effects are elided; the fresh guest id (built from
`Date.now()`) is modelled as `"guest_ts"`. -/
def identifySpeakerWith (defaultIdent : VoiceIdent) (textEmpty : Bool)
    (hits : RegexHits) (af : Option AudioFeatures)
    (db : List VoiceProfile) : VoiceIdent :=
  if textEmpty then ⟨"unknown", 0, "unknown", false, true⟩
  else
    let donationCheck := analyzeTextPatterns hits
    if (donationCheck.map (fun t => t.ttype == "donation")).getD false then
      ⟨"donation", (donationCheck.map (fun t => t.confidence)).getD 0,
        "donation", false, true⟩
    else
      let ana := analyzeTextPatterns hits
      match bestProfile ana af db with
      | (bestScore, some p) =>
        if (6 : ℚ)/10 < bestScore then
          ⟨p.id, bestScore, p.vtype, p.id == "streamer", false⟩
        else
          match ana with
          | some t =>
            if t.ttype != "donation" then
              ⟨if t.ttype == "streamer" then "streamer" else "guest_ts",
                t.confidence, t.ttype, t.ttype == "streamer", false⟩
            else defaultIdent
          | none => defaultIdent
      | (_, none) =>
        match ana with
        | some t =>
          if t.ttype != "donation" then
            ⟨if t.ttype == "streamer" then "streamer" else "guest_ts",
              t.confidence, t.ttype, t.ttype == "streamer", false⟩
          else defaultIdent
        | none => defaultIdent

/-- `identifySpeaker` of src/src/modules/localVoiceIdentifier.js: the
ambiguous default is unknown with confidence 0.3, not ignored (lines
343-352). -/
def identifySpeakerShipped (textEmpty : Bool) (hits : RegexHits)
    (af : Option AudioFeatures) (db : List VoiceProfile) : VoiceIdent :=
  identifySpeakerWith ⟨"unknown", (3 : ℚ)/10, "unknown", false, false⟩
    textEmpty hits af db

/-- `identifySpeaker` of the unnamed updated copy (part_012, lines 456-484):
the ambiguous default assumes the streamer with confidence 0.5, not
ignored. -/
def identifySpeakerUpdated (textEmpty : Bool) (hits : RegexHits)
    (af : Option AudioFeatures) (db : List VoiceProfile) : VoiceIdent :=
  identifySpeakerWith ⟨"streamer", (5 : ℚ)/10, "streamer", true, false⟩
    textEmpty hits af db

/-- The coordinator's post-processing of an identification
(coordinator.js lines 85-96): anything not explicitly guest or donation is
treated as the streamer. -/
def coordinatorStreamerFixup (vi : VoiceIdent) : Bool :=
  vi.isStreamer || (!vi.isStreamer && vi.vtype != "guest" &&
    vi.vtype != "donation")

/-- C8: with non-empty input text, no donation or lexical pattern firing and
no stored profile scoring above the 0.6 match bar, both `identifySpeaker`
versions return a non-ignored segment with confidence in [0.3, 0.5] that the
pipeline attributes to the streamer: the updated version returns role
streamer directly, and the shipped version's unknown default is mapped to
the streamer by the coordinator's fixup.  In particular `ignore` is never
true on this path. -/
theorem identify_default_streamer (hits : RegexHits)
    (af : Option AudioFeatures) (db : List VoiceProfile)
    (hana : analyzeTextPatterns hits = none)
    (hscore : (bestProfile (analyzeTextPatterns hits) af db).1 ≤ (6 : ℚ)/10) :
    (identifySpeakerUpdated false hits af db).vtype = "streamer" ∧
    (identifySpeakerUpdated false hits af db).isStreamer = true ∧
    (identifySpeakerUpdated false hits af db).shouldIgnore = false ∧
    (3 : ℚ)/10 ≤ (identifySpeakerUpdated false hits af db).confidence ∧
    (identifySpeakerUpdated false hits af db).confidence ≤ (5 : ℚ)/10 ∧
    (identifySpeakerShipped false hits af db).shouldIgnore = false ∧
    (3 : ℚ)/10 ≤ (identifySpeakerShipped false hits af db).confidence ∧
    (identifySpeakerShipped false hits af db).confidence ≤ (5 : ℚ)/10 ∧
    coordinatorStreamerFixup (identifySpeakerShipped false hits af db) =
      true := by
  have hnlt : ¬ ((6 : ℚ)/10 <
      (bestProfile (analyzeTextPatterns hits) af db).1) := not_lt.mpr hscore
  unfold identifySpeakerUpdated identifySpeakerShipped identifySpeakerWith
  rw [hana]
  simp only [Option.map_none', Option.getD_none, Bool.false_eq_true, if_false]
  cases hbp : bestProfile none af db with
  | mk bestScore bestP =>
    rw [hana, hbp] at hnlt
    cases bestP with
    | none =>
      simp [coordinatorStreamerFixup]
      norm_num
    | some p =>
      have hnlt2 : ¬ ((6 : ℚ)/10 < bestScore) := hnlt
      simp [coordinatorStreamerFixup, if_neg hnlt2]
      norm_num

/-- Witness for C8: no pattern hits, no audio sample, empty profile
database. -/
theorem identify_default_streamer_witness :
    (identifySpeakerUpdated false ⟨false, false, false, false, false, false,
        false⟩ none []).vtype = "streamer" ∧
    (identifySpeakerUpdated false ⟨false, false, false, false, false, false,
        false⟩ none []).isStreamer = true ∧
    (identifySpeakerUpdated false ⟨false, false, false, false, false, false,
        false⟩ none []).shouldIgnore = false ∧
    (3 : ℚ)/10 ≤ (identifySpeakerUpdated false ⟨false, false, false, false,
        false, false, false⟩ none []).confidence ∧
    (identifySpeakerUpdated false ⟨false, false, false, false, false, false,
        false⟩ none []).confidence ≤ (5 : ℚ)/10 ∧
    (identifySpeakerShipped false ⟨false, false, false, false, false, false,
        false⟩ none []).shouldIgnore = false ∧
    (3 : ℚ)/10 ≤ (identifySpeakerShipped false ⟨false, false, false, false,
        false, false, false⟩ none []).confidence ∧
    (identifySpeakerShipped false ⟨false, false, false, false, false, false,
        false⟩ none []).confidence ≤ (5 : ℚ)/10 ∧
    coordinatorStreamerFixup (identifySpeakerShipped false ⟨false, false,
        false, false, false, false, false⟩ none []) = true :=
  identify_default_streamer ⟨false, false, false, false, false, false, false⟩
    none [] (by decide) (by decide)

/-! ## Ingestion paths and the ignore-free buffer invariant -/

/-- The "silence" placeholder segment created when recognition returns no
text (coordinator.js lines 52-59 and 195-202). -/
def silenceSpeech : Speech :=
  ⟨"молчание", (1 : ℚ)/10, false, false, true⟩

/-- Attaching an identification to a segment (coordinator.js lines 84-96):
the ignore flag is copied and anything not explicitly guest or donation is
treated as the streamer. -/
def labelSpeech (sp : Speech) (vi : VoiceIdent) : Speech :=
  { sp with isStreamer := coordinatorStreamerFixup vi,
            shouldIgnore := vi.shouldIgnore }

/-- The silence branch labelling (lines 97-113 and 240-256): fixed defaults
with `shouldIgnore = false`. -/
def labelSilence (sp : Speech) : Speech :=
  { sp with isStreamer := false, shouldIgnore := false }

/-- The coordinator state fragment mutated by the two ingestion paths. -/
structure IngestState where
  speechBuffer : List Speech
  recentSpeechText : List Speech
  lastSpeechAnalysisTime : ℕ
deriving DecidableEq, Repr

/-- Lines 52-59 / 195-202: an unrecognized or empty-text result is replaced
by the silence segment. -/
def recognizedOrSilence (recognized : Option Speech) : Speech :=
  match recognized with
  | some sp => if sp.text = "" then silenceSpeech else sp
  | none => silenceSpeech

/-- The segment as it would be buffered: silence gets fixed defaults,
anything else carries its identification. -/
def labeledOf (sp0 : Speech) (vi : VoiceIdent) : Speech :=
  if sp0.isSilence then labelSilence sp0 else labelSpeech sp0 vi

/-- The effective ignore decision: silence is never ignored, otherwise the
identification's flag applies (the guard of lines 116 and 259). -/
def ignoreOf (sp0 : Speech) (vi : VoiceIdent) : Bool :=
  if sp0.isSilence then false else vi.shouldIgnore

/-- `Coordinator.processAudioOnly` (coordinator.js lines 38-163) restricted
to its effect on the speech buffers: an unrecognized result becomes the
silence segment; the brain's error filter may drop a non-silence segment
(`filteredOut`); an identification with `shouldIgnore` drops the segment
before buffering; otherwise the labeled segment enters `speechBuffer`
(capacity 10) and, every 15 s, the accumulated segments are promoted in
order into `recentSpeechText` (capacity 5) and the buffer cleared. -/
def processAudioOnly (st : IngestState) (isActive : Bool)
    (recognized : Option Speech) (filteredOut : Bool) (vi : VoiceIdent)
    (now : ℕ) : IngestState :=
  if !isActive then st
  else if !(recognizedOrSilence recognized).isSilence && filteredOut then st
  else if ignoreOf (recognizedOrSilence recognized) vi then st
  else if 15000 ≤ now - st.lastSpeechAnalysisTime then
    ⟨[],
      (pushBounded 10 st.speechBuffer
          (labeledOf (recognizedOrSilence recognized) vi)).foldl
        (fun acc x => pushBounded 5 acc x) st.recentSpeechText,
      now⟩
  else
    ⟨pushBounded 10 st.speechBuffer
        (labeledOf (recognizedOrSilence recognized) vi),
      st.recentSpeechText, st.lastSpeechAnalysisTime⟩

/-- The speech part of `Coordinator.processImageOnly` (coordinator.js lines
169-289) restricted to its effect on the buffers: same silence and filter
handling, then the segment enters `recentSpeechText` (capacity 5) directly
when not ignored or when it is silence (line 259). -/
def processImageOnly (st : IngestState) (isActive hasAudio : Bool)
    (recognized : Option Speech) (filteredOut : Bool) (vi : VoiceIdent) :
    IngestState :=
  if !isActive then st
  else if !hasAudio then st
  else if !(recognizedOrSilence recognized).isSilence && filteredOut then st
  else if !(ignoreOf (recognizedOrSilence recognized) vi) ||
      (recognizedOrSilence recognized).isSilence then
    ⟨st.speechBuffer,
      pushBounded 5 st.recentSpeechText
        (labeledOf (recognizedOrSilence recognized) vi),
      st.lastSpeechAnalysisTime⟩
  else st

/-- The invariant of C10: no buffered segment carries `shouldIgnore`. -/
def buffersIgnoreFree (st : IngestState) : Prop :=
  (∀ x ∈ st.speechBuffer, x.shouldIgnore = false) ∧
  (∀ x ∈ st.recentSpeechText, x.shouldIgnore = false)

instance (st : IngestState) : Decidable (buffersIgnoreFree st) := by
  unfold buffersIgnoreFree
  infer_instance

theorem mem_pushBounded {α : Type _} {x a : α} {N : ℕ} {l : List α}
    (hx : x ∈ pushBounded N l a) : x ∈ l ∨ x = a := by
  simp only [pushBounded] at hx
  split at hx
  · have := List.mem_of_mem_tail hx
    simpa using this
  · simpa using hx

theorem foldl_pushBounded_forall {P : Speech → Prop} :
    ∀ (sb acc : List Speech), (∀ x ∈ acc, P x) → (∀ x ∈ sb, P x) →
      ∀ x ∈ sb.foldl (fun acc2 y => pushBounded 5 acc2 y) acc, P x := by
  intro sb
  induction sb with
  | nil =>
    intro acc hacc _ x hx
    exact hacc x (by simpa using hx)
  | cons hd tl ih =>
    intro acc hacc hsb x hx
    simp only [List.foldl_cons] at hx
    refine ih (pushBounded 5 acc hd) ?_ ?_ x hx
    · intro z hz
      rcases mem_pushBounded hz with h | h
      · exact hacc z h
      · rw [h]
        exact hsb hd (by simp)
    · intro z hz
      exact hsb z (by simp [hz])

/-- C10: both ingestion paths preserve the invariant that every segment
stored in the temporary `speechBuffer` and in the shared
`contextBuffer.recentSpeechText` has `shouldIgnore = false`: segments whose
identification says ignore (donations) are dropped before buffering, and
silence segments are stored with the flag explicitly false, so an ignored
segment can never reach an emission decision. -/
theorem ingestion_preserves_ignore_free (st : IngestState)
    (hinv : buffersIgnoreFree st) (isActive hasAudio : Bool)
    (recognized : Option Speech) (filteredOut : Bool) (vi : VoiceIdent)
    (now : ℕ) :
    buffersIgnoreFree (processAudioOnly st isActive recognized filteredOut
      vi now) ∧
    buffersIgnoreFree (processImageOnly st isActive hasAudio recognized
      filteredOut vi) := by
  obtain ⟨hsb, hrs⟩ := hinv
  have hlab : ∀ sp0 : Speech,
      (labeledOf sp0 vi).shouldIgnore = ignoreOf sp0 vi := by
    intro sp0
    unfold labeledOf ignoreOf labelSilence labelSpeech
    split
    · rfl
    · rfl
  constructor
  · unfold processAudioOnly
    split
    · exact ⟨hsb, hrs⟩
    · split
      · exact ⟨hsb, hrs⟩
      · split
        · exact ⟨hsb, hrs⟩
        · rename_i hign
          split
          · refine ⟨by simp, ?_⟩
            refine foldl_pushBounded_forall _ _ hrs ?_
            intro x hx
            rcases mem_pushBounded hx with h | h
            · exact hsb x h
            · subst h
              rw [hlab]
              simpa using hign
          · refine ⟨?_, hrs⟩
            intro x hx
            rcases mem_pushBounded hx with h | h
            · exact hsb x h
            · subst h
              rw [hlab]
              simpa using hign
  · unfold processImageOnly
    split
    · exact ⟨hsb, hrs⟩
    · split
      · exact ⟨hsb, hrs⟩
      · split
        · exact ⟨hsb, hrs⟩
        · split
          · rename_i hcond
            refine ⟨hsb, ?_⟩
            intro x hx
            rcases mem_pushBounded hx with h | h
            · exact hrs x h
            · subst h
              rw [hlab]
              rcases Bool.or_eq_true _ _ |>.mp hcond with h1 | h1
              · simp only [Bool.not_eq_true'] at h1
                exact h1
              · unfold ignoreOf
                simp [h1]
          · exact ⟨hsb, hrs⟩

/-- Witness for C10: an empty buffer state ingesting a donation-labelled
segment (dropped) on the audio path and the image path. -/
theorem ingestion_preserves_ignore_free_witness :
    buffersIgnoreFree (processAudioOnly ⟨[], [], 0⟩ true
      (some ⟨"спасибо за донат", (8 : ℚ)/10, false, false, false⟩) false
      ⟨"donation", (9 : ℚ)/10, "donation", false, true⟩ 20000) ∧
    buffersIgnoreFree (processImageOnly ⟨[], [], 0⟩ true true
      (some ⟨"спасибо за донат", (8 : ℚ)/10, false, false, false⟩) false
      ⟨"donation", (9 : ℚ)/10, "donation", false, true⟩) :=
  ingestion_preserves_ignore_free ⟨[], [], 0⟩ (by decide) true true
    (some ⟨"спасибо за донат", (8 : ℚ)/10, false, false, false⟩) false
    ⟨"donation", (9 : ℚ)/10, "donation", false, true⟩ 20000

end TwitchBot
